import Mathlib

/-!
Verification of the console command extension in `gpyConsole/console.py`
(class `ConsoleMixin`): the command registry (`add_console_command`,
`remove_console_command`, `get_console_command`, `_console_commands_by_alias`,
`all_console_commands`), the dispatcher (`console_invoke`), the default error
handler (`on_console_command_error`) and the input loop (`_on_console`).

Python dictionaries over string keys are embedded as association lists
`List (String × α)` with first-match lookup; Python exceptions are embedded
as `Except PyErr`.
-/

set_option autoImplicit false

namespace GpyConsole

/-- Python exceptions that the embedded code can raise. `attributeError`
embeds `AttributeError`; `registrationError` embeds the library's
`errors.ConsoleCommandRegistrationError` (raised by `add_console_command`). -/
inductive PyErr where
  | attributeError (msg : String)
  | registrationError (msg : String)
  deriving DecidableEq

/-- Lookup in a Python dict: the first binding of the key, if any
(keys are unique in every dict the code builds, so first-match is exact). -/
def dictGet {α : Type} : List (String × α) → String → Option α
  | [], _ => none
  | (k, v) :: rest, key => if k = key then some v else dictGet rest key

/-- Python dict assignment `d[k] = v`: replaces the value in place when the
key is present, otherwise appends the new binding at the end. -/
def dictInsert {α : Type} : List (String × α) → String → α → List (String × α)
  | [], key, v => [(key, v)]
  | (k, w) :: rest, key, v =>
      if k = key then (key, v) :: rest else (k, w) :: dictInsert rest key v

/-- Removal of a key from a Python dict (the mutation performed by
`dict.pop` when the key is present). -/
def dictRemove {α : Type} : List (String × α) → String → List (String × α)
  | [], _ => []
  | (k, v) :: rest, key => if k = key then rest else (k, v) :: dictRemove rest key

/-- Python dict merge `\x7b**a, **b\x7d`: the keys of `a` in order with values
overridden by `b` where shared, followed by the keys of `b` not in `a`. -/
def dictMerge {α : Type} (a b : List (String × α)) : List (String × α) :=
  (a.map fun kv =>
    match dictGet b kv.fst with
    | some v => (kv.fst, v)
    | none => kv)
  ++ b.filter (fun kv => (dictGet a kv.fst).isNone)

/-- Modelled from the spec: `ConsoleCommand` and `ConsoleGroup` live in
`gpyConsole/core.py`, which is part of this repository but not under `src/`.
The spec describes a command as a name plus a set of alias strings, and a
group as a command that additionally owns a nested registry of subcommands
(exposed to `get_console_command` as the group's `all_commands` mapping).
`plain` embeds a non-group `ConsoleCommand`; `group` embeds a `ConsoleGroup`
whose nested registry is the association list `sub`. -/
inductive Cmd where
  | plain (name : String) (aliases : List String)
  | group (name : String) (aliases : List String) (sub : List (String × Cmd))

/-- The command's `name` attribute. -/
def Cmd.name : Cmd → String
  | Cmd.plain n _ => n
  | Cmd.group n _ _ => n

/-- The command's `aliases` attribute. -/
def Cmd.aliases : Cmd → List String
  | Cmd.plain _ a => a
  | Cmd.group _ a _ => a

/-- Python `isinstance(obj, ConsoleGroup)`. -/
def Cmd.isGroup : Cmd → Bool
  | Cmd.plain _ _ => false
  | Cmd.group _ _ _ => true

/-- Attribute access `obj.all_commands`: a group yields its nested registry,
a plain command has no such attribute (`none` embeds the `AttributeError`
that `get_console_command` catches in its descent loop). -/
def Cmd.allCommands : Cmd → Option (List (String × Cmd))
  | Cmd.plain _ _ => none
  | Cmd.group _ _ s => some s

/-- Python `list.remove` on the command's alias list (first occurrence). -/
def Cmd.removeAlias : Cmd → String → Cmd
  | Cmd.plain n a, x => Cmd.plain n (a.erase x)
  | Cmd.group n a s, x => Cmd.group n (a.erase x) s

/-- The bot's `_console_commands` dict, mapping primary name to command. -/
abbrev Registry := List (String × Cmd)

/-- The `AttributeError` raised by evaluating `command.aliases` when
`command` is a `str`. CPython's message is "'str' object has no attribute
'aliases'"; the quotes are elided here. -/
def strAliasesErr : PyErr :=
  PyErr.attributeError "str object has no attribute aliases"

/-- Attribute access `key.aliases` where `key` is a dict key (a `str`):
it can never succeed, so the success type is `Empty`. -/
def strAttrAliases (key : String) : Except PyErr Empty :=
  match key with
  | _ => Except.error strAliasesErr

/-- Embeds the property `_console_commands_by_alias` (console.py lines
82-87). The source iterates `for command in self._console_commands:` —
iterating a dict yields its KEYS, which are the command name strings — and
the loop body immediately evaluates `command.aliases` on that string, which
raises `AttributeError`. Hence: an empty registry yields the empty alias
map, and a non-empty registry raises `AttributeError` on the first
iteration (the loop can never proceed past it, witnessed by `Empty`). -/
def consoleCommandsByAlias (reg : Registry) : Except PyErr Registry :=
  match reg with
  | [] => Except.ok []
  | (k, _) :: _ =>
      match strAttrAliases k with
      | Except.error e => Except.error e
      | Except.ok emp => emp.elim

/-- Embeds the property `all_console_commands` (console.py lines 89-91):
`\x7b**self._console_commands, **self._console_commands_by_alias\x7d`. -/
def all_console_commands (reg : Registry) : Except PyErr Registry :=
  match consoleCommandsByAlias reg with
  | Except.error e => Except.error e
  | Except.ok byAlias => Except.ok (dictMerge reg byAlias)

/-- Embeds `add_console_command` (console.py lines 93-115): raise
`ConsoleCommandRegistrationError` when the name is an existing key; else
compute the alias map and raise when the name is an existing alias; else
insert the command under its name. The alias-map computation itself raises
`AttributeError` whenever the registry is non-empty. -/
def add_console_command (reg : Registry) (command : Cmd) : Except PyErr Registry :=
  if (dictGet reg command.name).isSome then
    Except.error (PyErr.registrationError
      ("A console command with the name " ++ command.name ++ " is already registered."))
  else
    match consoleCommandsByAlias reg with
    | Except.error e => Except.error e
    | Except.ok byAlias =>
        if (dictGet byAlias command.name).isSome then
          Except.error (PyErr.registrationError
            ("A console command with the alias " ++ command.name ++ " is already registered."))
        else
          Except.ok (dictInsert reg command.name command)

/-- Embeds `remove_console_command` (console.py lines 117-146). Python
evaluates the fallback argument `self._console_commands_by_alias.get(name)`
before calling `pop`, so the alias map (and its `AttributeError` on any
non-empty registry) comes first. When the command is found via an alias the
source mutates the shared command object (`command.aliases.remove(name)`);
that mutation is embedded by rewriting the registry binding of the command's
primary name. Returns the popped command (or `none`) with the new registry. -/
def remove_console_command (reg : Registry) (name : String) :
    Except PyErr (Option Cmd × Registry) :=
  match consoleCommandsByAlias reg with
  | Except.error e => Except.error e
  | Except.ok byAlias =>
      match dictGet reg name with
      | some command =>
          let reg2 := dictRemove reg name
          if name ∈ command.aliases then
            Except.ok (some (command.removeAlias name), reg2)
          else
            Except.ok (some command, reg2)
      | none =>
          match dictGet byAlias name with
          | some command =>
              if name ∈ command.aliases then
                let c2 := command.removeAlias name
                Except.ok (some c2, dictInsert reg c2.name c2)
              else
                Except.ok (some command, reg)
          | none => Except.ok (none, reg)

/-- Accumulator pass for `pySplit`: walk the characters, collecting the
current token reversed in `acc`, emitting it at each whitespace run. -/
def pySplitAux : List Char → List Char → List String
  | [], acc => if acc.isEmpty then [] else [String.mk acc.reverse]
  | c :: rest, acc =>
      if c.isWhitespace then
        if acc.isEmpty then pySplitAux rest []
        else String.mk acc.reverse :: pySplitAux rest []
      else pySplitAux rest (c :: acc)

/-- Python `str.split()` with no separator: split on runs of whitespace,
discarding empty pieces (so an all-whitespace string yields no tokens). -/
def pySplit (s : String) : List String :=
  pySplitAux s.data []

/-- Python `c in s` for a single character: does the character occur. -/
def containsChar (s : String) (c : Char) : Bool :=
  s.data.contains c

/-- Drop leading whitespace characters. -/
def dropWs : List Char → List Char
  | [] => []
  | c :: rest => if c.isWhitespace then dropWs rest else c :: rest

/-- Python `str.strip()`: remove leading and trailing whitespace. -/
def pyStrip (s : String) : String :=
  String.mk (dropWs ((dropWs s.data.reverse).reverse))

/-- The descent loop of `get_console_command` (console.py lines 178-184):
`for name in names[1:]: try: obj = obj.all_commands[name] except
(AttributeError, KeyError): return None`. A plain command has no
`all_commands` attribute (`AttributeError`), a missing key is a `KeyError`;
both return `None`. -/
def descend : Cmd → List String → Option Cmd
  | obj, [] => some obj
  | obj, n :: rest =>
      match obj.allCommands with
      | none => none
      | some sub =>
          match dictGet sub n with
          | none => none
          | some nxt => descend nxt rest

/-- Embeds `get_console_command` (console.py lines 148-184): fast path when
the name contains no space character (`" " not in name`) does a direct
lookup in `all_console_commands`; otherwise split on whitespace, return
`None` for no tokens, resolve the first token, return it unchanged when it
is not a `ConsoleGroup` (including `None` when unresolved), else run the
descent loop over the remaining tokens. -/
def get_console_command (reg : Registry) (name : String) : Except PyErr (Option Cmd) :=
  if containsChar name ' ' = false then
    match all_console_commands reg with
    | Except.error e => Except.error e
    | Except.ok allCmds => Except.ok (dictGet allCmds name)
  else
    match pySplit name with
    | [] => Except.ok none
    | first :: rest =>
        match all_console_commands reg with
        | Except.error e => Except.error e
        | Except.ok allCmds =>
            match dictGet allCmds first with
            | none => Except.ok none
            | some obj =>
                if obj.isGroup = false then Except.ok (some obj)
                else Except.ok (descend obj rest)

/-- Modelled from the spec: the error taxonomy of `gpyConsole/errors.py`,
part of this repository but not under `src/`. The spec names a generic
`ConsoleCommandError` family containing `NotFoundError` (raised as
`ConsoleCommandNotFound` in console.py), `CheckFailureError` (raised as
`ConsoleCheckFailure`) and `CommandExecutionError` for errors raised by a
command body. Each constructor is one member of the family, carrying its
message. -/
inductive ConsoleError where
  | notFound (msg : String)
  | checkFailure (msg : String)
  | invokeError (msg : String)
  deriving DecidableEq

/-- The events dispatched by `console_invoke` through `super().dispatch`. -/
inductive Event where
  | consoleCommand
  | consoleCommandError (e : ConsoleError)
  | consoleCommandCompletion
  deriving DecidableEq

/-- True exactly on `console_command_error` events. -/
def Event.isError : Event → Bool
  | Event.consoleCommandError _ => true
  | _ => false

/-- Outcome of `await self.can_run(ctx, call_once=True)`, a call into the
host framework (guilded.py, an external collaborator): it either returns a
Bool, or propagates an exception raised by a run-once predicate — which may
or may not belong to the `ConsoleCommandError` taxonomy. -/
inductive CheckOutcome where
  | ok (b : Bool)
  | raisesConsole (e : ConsoleError)
  | raisesOther (msg : String)
  deriving DecidableEq

/-- Modelled from the spec: outcome of `await ctx.command.invoke(ctx)`
(`ConsoleCommand.invoke` lives in `gpyConsole/core.py`, not under `src/`).
It either returns, or raises an error of the `ConsoleCommandError`
taxonomy, or raises some other exception. -/
inductive BodyOutcome where
  | ok
  | raisesConsole (e : ConsoleError)
  | raisesOther (msg : String)
  deriving DecidableEq

/-- The per-invocation context as `console_invoke` consumes it: its resolved
`command` (or `None`) and its `invoked_with` token. `Context` is built in
`gpyConsole/context.py` (not under `src/`); `console_invoke` only reads
these two attributes. Python string truthiness makes `invoked_with = ""`
the falsy "no leading token" case. -/
structure Ctx where
  command : Option Cmd
  invoked_with : String

/-- Observable result of one `console_invoke` call: the events dispatched in
order, how many times the command body was invoked, and the exception that
propagated out of `console_invoke` to its caller (`none` = returned). -/
structure InvokeResult where
  events : List Event
  bodiesRun : Nat
  raised : Option String
  deriving DecidableEq

/-- Message of the `ConsoleCheckFailure` raised at console.py line 258. -/
def checkOnceFailMsg : String := "The global check once functions failed."

/-- Message of the `ConsoleCommandNotFound` built at console.py lines
267-269; it quotes the attempted token. -/
def notFoundMsg (tok : String) : String :=
  "Console command \"" ++ tok ++ "\" is not found"

/-- Embeds `console_invoke` (console.py lines 251-270). With a resolved
command: dispatch `console_command` unconditionally, then run the run-once
check; on `True` invoke the body, on `False` raise `ConsoleCheckFailure`.
The `except errors.ConsoleCommandError` clause turns any taxonomy error —
from the check call or the body — into one `console_command_error` dispatch;
the `else` clause dispatches `console_command_completion` only when nothing
was raised; any non-taxonomy exception propagates to the caller. With no
resolved command: dispatch one `console_command_error` carrying
`ConsoleCommandNotFound` when `invoked_with` is truthy, else do nothing. -/
def console_invoke (ctx : Ctx) (checkRun : CheckOutcome) (body : BodyOutcome) :
    InvokeResult :=
  match ctx.command with
  | some _ =>
      match checkRun with
      | CheckOutcome.ok true =>
          match body with
          | BodyOutcome.ok =>
              InvokeResult.mk [Event.consoleCommand, Event.consoleCommandCompletion] 1 none
          | BodyOutcome.raisesConsole e =>
              InvokeResult.mk [Event.consoleCommand, Event.consoleCommandError e] 1 none
          | BodyOutcome.raisesOther m =>
              InvokeResult.mk [Event.consoleCommand] 1 (some m)
      | CheckOutcome.ok false =>
          InvokeResult.mk
            [Event.consoleCommand,
             Event.consoleCommandError (ConsoleError.checkFailure checkOnceFailMsg)]
            0 none
      | CheckOutcome.raisesConsole e =>
          InvokeResult.mk [Event.consoleCommand, Event.consoleCommandError e] 0 none
      | CheckOutcome.raisesOther m =>
          InvokeResult.mk [Event.consoleCommand] 0 (some m)
  | none =>
      if ctx.invoked_with = "" then
        InvokeResult.mk [] 0 none
      else
        InvokeResult.mk
          [Event.consoleCommandError (ConsoleError.notFound (notFoundMsg ctx.invoked_with))]
          0 none

/-- The `context.cog` object as `on_console_command_error` consumes it:
only its `has_error_handler()` answer matters. -/
structure Cog where
  hasErrorHandler : Bool

/-- The header line printed at console.py line 240. -/
def errorHeaderLine (commandRepr : String) : String :=
  "Ignoring exception in command " ++ commandRepr ++ ":"

/-- Embeds the default handler `on_console_command_error` (console.py lines
218-243), returning the lines it prints to `sys.stderr`. Its docstring says
it only fires when no listener is registered for console command error, but
that check is commented out in the body (marked `TODO: implement this, for
now it'll always fire`), so the `hasListener` flag is accepted and ignored.
The body returns early when `context.cog` exists and has its own error
handler; otherwise it prints the header line followed by the output of
`traceback.print_exception` (exception type, message and traceback),
embedded here as the given `tb` lines. -/
def on_console_command_error (hasListener : Bool) (cog : Option Cog)
    (commandRepr : String) (tb : List String) : List String :=
  match hasListener, cog with
  | _, some c => if c.hasErrorHandler then [] else errorHeaderLine commandRepr :: tb
  | _, none => errorHeaderLine commandRepr :: tb

/-- Embeds `self.input.read()` at console.py line 334: a `TextIO.read()`
with no size argument returns the whole remaining stream up to EOF. The
stream is given by its list of lines, so the text read is those lines
joined by newlines. -/
def streamReadAll : List String → String
  | [] => ""
  | [l] => l
  | l :: rest => l ++ "\n" ++ streamReadAll rest

/-- Embeds the events dispatched by the `_on_console` loop (console.py
lines 325-339) over the lifetime of a stream. The first iteration reads the
WHOLE stream (`self.input.read()`, not a per-line read), strips surrounding
whitespace, skips when the result is empty and otherwise dispatches one
`console_message` event carrying it. Every later iteration reads `""` (the
stream is at EOF), strips to `""` and skips, so these are all the events
the loop ever dispatches. -/
def onConsoleEvents (lines : List String) : List String :=
  let s := pyStrip (streamReadAll lines)
  if s.data.isEmpty then [] else [s]

/-! Concrete fixtures used to evaluate the embedded code. -/

/-- A plain command named "a" with no aliases. -/
def cmdA : Cmd := Cmd.plain "a" []

/-- A plain command named "b" with no aliases. -/
def cmdB : Cmd := Cmd.plain "b" []

/-- A plain command named "foo" with no aliases. -/
def cmdFoo : Cmd := Cmd.plain "foo" []

/-- A plain subcommand named "sub" with no aliases. -/
def cmdSub : Cmd := Cmd.plain "sub" []

/-- A group named "grp" whose nested registry holds the subcommand "sub". -/
def grpCmd : Cmd := Cmd.group "grp" [] [("sub", cmdSub)]

/-- C1: the claim says registering pairwise-distinct commands always
succeeds, and only collisions raise `RegistrationError`. In the code,
registering into an empty registry succeeds and a colliding NAME does raise
`RegistrationError`, but registering a SECOND command with a fresh distinct
name raises `AttributeError`: the duplicate-alias check computes
`_console_commands_by_alias`, whose loop iterates the dict keys (strings)
and reads `.aliases` on a `str`. -/
theorem add_console_command_attribute_error_bug :
    add_console_command [] cmdA = Except.ok [("a", cmdA)]
    ∧ add_console_command [("a", cmdA)] cmdB = Except.error strAliasesErr
    ∧ add_console_command [("a", cmdA)] (Cmd.plain "a" ["x"]) =
        Except.error (PyErr.registrationError
          "A console command with the name a is already registered.") :=
  ⟨rfl, rfl, rfl⟩

/-- C2: the claim says the input loop reads ONE LINE at a time and emits one
`console_message` event per non-blank stripped line, in order. The code
calls `self.input.read()`, which reads the whole stream to EOF: for the
stream with lines "hello", "" and "world" it dispatches a single event
carrying the entire stripped blob, not the two events "hello", "world" the
claim requires. -/
theorem on_console_reads_whole_stream_bug :
    onConsoleEvents ["hello", "", "world"] = ["hello\n\nworld"]
    ∧ onConsoleEvents ["hello", "", "world"] ≠ ["hello", "world"] := by
  constructor
  · rfl
  · decide

/-- C3: the claim says `get_console_command` returns `None` on `""` and on
`"   "` for EVERY registry state. On the empty registry both do return
`None`, and `"   "` returns `None` on a non-empty registry too (the
whitespace split yields no tokens before the alias map is touched), but
`""` takes the fast path through `all_console_commands` and raises
`AttributeError` as soon as the registry is non-empty. -/
theorem get_console_command_empty_name_bug :
    get_console_command [] "" = Except.ok none
    ∧ get_console_command [] "   " = Except.ok none
    ∧ get_console_command [("foo", cmdFoo)] "   " = Except.ok none
    ∧ get_console_command [("foo", cmdFoo)] "" = Except.error strAliasesErr :=
  ⟨rfl, rfl, rfl, rfl⟩

/-- C4: the claim says removing a registered command by its primary name
removes it and returns it, and removing an unknown name returns `None`.
The unknown-name case only works on the empty registry: on any non-empty
registry `remove_console_command` evaluates the alias map first (it is the
eagerly-evaluated fallback argument of `dict.pop`) and raises
`AttributeError`, even when removing by an existing primary name. -/
theorem remove_console_command_attribute_error_bug :
    remove_console_command [] "x" = Except.ok (none, [])
    ∧ remove_console_command [("foo", cmdFoo)] "foo" = Except.error strAliasesErr :=
  ⟨rfl, rfl⟩

/-- C5: the claim says `lookup "foo bar"` returns the plain command "foo"
and `lookup "grp sub"` returns the subcommand "sub". Both resolutions start
from `all_console_commands`, which raises `AttributeError` on any non-empty
registry; the descent logic itself (embedded as `descend`) would produce
the claimed subcommand, but is never reached. -/
theorem get_console_command_qualified_lookup_bug :
    get_console_command [("foo", cmdFoo)] "foo bar" = Except.error strAliasesErr
    ∧ get_console_command [("grp", grpCmd)] "grp sub" = Except.error strAliasesErr
    ∧ descend grpCmd ["sub"] = some cmdSub :=
  ⟨rfl, rfl, rfl⟩

/-- C10: the claim says `lookup "grp sub extra"`, where "sub" is a plain
subcommand of group "grp", returns `None` (the trailing-token passthrough
applies only at the first token). The descent loop (embedded as `descend`)
does behave exactly so — reaching the non-group "sub" with the token
"extra" remaining hits the caught `AttributeError` and yields `None` — but
`get_console_command` raises `AttributeError` while computing
`all_console_commands`, before the loop can run. -/
theorem get_console_command_trailing_tokens_bug :
    descend grpCmd ["sub", "extra"] = none
    ∧ get_console_command [("grp", grpCmd)] "grp sub extra" = Except.error strAliasesErr :=
  ⟨rfl, rfl⟩

/-- C6: with no resolved command, `console_invoke` dispatches exactly one
`console_command_error` carrying a `ConsoleCommandNotFound` that quotes the
attempted token when `invoked_with` is non-empty, runs no command body and
raises nothing; with `invoked_with` empty it dispatches nothing at all. -/
theorem console_invoke_not_found (ctx : Ctx) (chk : CheckOutcome) (b : BodyOutcome)
    (h : ctx.command = none) :
    (ctx.invoked_with ≠ "" →
      console_invoke ctx chk b =
        InvokeResult.mk
          [Event.consoleCommandError (ConsoleError.notFound (notFoundMsg ctx.invoked_with))]
          0 none)
    ∧ (ctx.invoked_with = "" →
      console_invoke ctx chk b = InvokeResult.mk [] 0 none) := by
  constructor
  · intro hne
    simp [console_invoke, h, hne]
  · intro he
    simp [console_invoke, h, he]

/-- C6 witness: the unresolved token "zap" yields exactly the NotFound
error event. -/
theorem console_invoke_not_found_witness :
    console_invoke (Ctx.mk none "zap") (CheckOutcome.ok true) BodyOutcome.ok =
      InvokeResult.mk
        [Event.consoleCommandError (ConsoleError.notFound (notFoundMsg "zap"))] 0 none :=
  (console_invoke_not_found (Ctx.mk none "zap") (CheckOutcome.ok true) BodyOutcome.ok
    rfl).1 (by decide)

/-- C7 counterexample: the claim says that whenever the run-once check
"fails (returns false or raises)", exactly one `console_command_error`
event carrying a CheckFailure is dispatched. Here the check RAISES an
exception outside the `ConsoleCommandError` taxonomy (e.g. a `ValueError`
from a user predicate): `console_invoke` dispatches NO error event at all —
the exception escapes the `except errors.ConsoleCommandError` clause and
propagates to the caller. -/
theorem console_invoke_check_raise_counterexample :
    (console_invoke (Ctx.mk (some cmdFoo) "foo")
        (CheckOutcome.raisesOther "ValueError: boom") BodyOutcome.ok).events.filter
        Event.isError = []
    ∧ console_invoke (Ctx.mk (some cmdFoo) "foo")
        (CheckOutcome.raisesOther "ValueError: boom") BodyOutcome.ok =
      InvokeResult.mk [Event.consoleCommand] 0 (some "ValueError: boom") :=
  ⟨rfl, rfl⟩

/-- C7 (amended): with a resolved command, a run-once check that RETURNS
false leads to zero body invocations and exactly one `console_command_error`
event carrying the CheckFailure error, dispatched after the unconditional
`console_command` event; a check that RAISES still runs zero bodies, but
only an exception of the `ConsoleCommandError` taxonomy is converted into
an error event (carrying that very error), while any other exception
propagates to the caller with no error event dispatched. -/
theorem console_invoke_check_failure_amended (ctx : Ctx) (c : Cmd)
    (chk : CheckOutcome) (b : BodyOutcome) (h : ctx.command = some c) :
    (chk = CheckOutcome.ok false →
      console_invoke ctx chk b =
        InvokeResult.mk
          [Event.consoleCommand,
           Event.consoleCommandError (ConsoleError.checkFailure checkOnceFailMsg)]
          0 none)
    ∧ (∀ e : ConsoleError, chk = CheckOutcome.raisesConsole e →
      console_invoke ctx chk b =
        InvokeResult.mk [Event.consoleCommand, Event.consoleCommandError e] 0 none)
    ∧ (∀ m : String, chk = CheckOutcome.raisesOther m →
      console_invoke ctx chk b = InvokeResult.mk [Event.consoleCommand] 0 (some m)) := by
  refine ⟨?_, ?_, ?_⟩
  · intro hc
    simp [console_invoke, h, hc]
  · intro e hc
    simp [console_invoke, h, hc]
  · intro m hc
    simp [console_invoke, h, hc]

/-- C7 witness: a failing (false-returning) run-once check on a resolved
command dispatches the `console_command` event and then exactly the
CheckFailure error event, running no body. -/
theorem console_invoke_check_failure_amended_witness :
    console_invoke (Ctx.mk (some cmdFoo) "foo") (CheckOutcome.ok false) BodyOutcome.ok =
      InvokeResult.mk
        [Event.consoleCommand,
         Event.consoleCommandError (ConsoleError.checkFailure checkOnceFailMsg)]
        0 none :=
  (console_invoke_check_failure_amended (Ctx.mk (some cmdFoo) "foo") cmdFoo
    (CheckOutcome.ok false) BodyOutcome.ok rfl).1 rfl

/-- C8: with a resolved command and a passing run-once check, a body that
raises a `ConsoleCommandError`-taxonomy error yields exactly one
`console_command_error` event carrying that error, no completion event,
and nothing propagates to the caller; a body that completes yields exactly
one `console_command_completion` event and zero error events. -/
theorem console_invoke_body_outcomes (ctx : Ctx) (c : Cmd) (b : BodyOutcome)
    (h : ctx.command = some c) :
    (∀ e : ConsoleError, b = BodyOutcome.raisesConsole e →
      console_invoke ctx (CheckOutcome.ok true) b =
        InvokeResult.mk [Event.consoleCommand, Event.consoleCommandError e] 1 none)
    ∧ (b = BodyOutcome.ok →
      console_invoke ctx (CheckOutcome.ok true) b =
        InvokeResult.mk [Event.consoleCommand, Event.consoleCommandCompletion] 1 none) := by
  constructor
  · intro e hb
    simp [console_invoke, h, hb]
  · intro hb
    simp [console_invoke, h, hb]

/-- C8 witness: a body raising an execution error yields exactly its error
event and no completion, without propagating. -/
theorem console_invoke_body_outcomes_witness :
    console_invoke (Ctx.mk (some cmdFoo) "foo") (CheckOutcome.ok true)
        (BodyOutcome.raisesConsole (ConsoleError.invokeError "boom")) =
      InvokeResult.mk
        [Event.consoleCommand,
         Event.consoleCommandError (ConsoleError.invokeError "boom")] 1 none :=
  (console_invoke_body_outcomes (Ctx.mk (some cmdFoo) "foo") cmdFoo
    (BodyOutcome.raisesConsole (ConsoleError.invokeError "boom")) rfl).1
    (ConsoleError.invokeError "boom") rfl

/-- C9: the claim says the default error handler runs ONLY when no listener
is registered for the error event. The code's listener check is commented
out (`TODO: implement this, for now it'll always fire`), contradicting the
handler's own docstring: with a listener registered and no cog, it still
prints the "Ignoring exception in command X" header and the traceback. The
cog-delegation skip of the claim does hold. -/
theorem on_console_command_error_always_fires_bug :
    on_console_command_error true none "foo" ["TracebackLine"] =
      ["Ignoring exception in command foo:", "TracebackLine"]
    ∧ on_console_command_error true (some (Cog.mk true)) "foo" ["TracebackLine"] = []
    ∧ on_console_command_error false none "foo" ["TracebackLine"] =
      ["Ignoring exception in command foo:", "TracebackLine"] :=
  ⟨rfl, rfl, rfl⟩

end GpyConsole
